import Mathlib

/-!
Shallow embedding of the realm-world-server Express application
(`src/server.js`, `src/unnamed/part_000`, `src/unnamed/part_001`).

The repository is three near-duplicate single-file Express servers.  Request
handlers are pure functions of their inputs once the outcome of the external
calls (Google Sheets range reads, token verification) is fixed, so we embed:

* the outcome of a Sheets `values.get` call as
  `SheetResult = Except String (Option matrix)` — `error` is a rejected
  promise, `ok none` is a response whose `data.values` field is absent
  (what the Sheets API returns for an empty range), `ok (some m)` is a
  returned row matrix of string cells;
* token verification (`admin.auth().verifyIdToken` in server.js/part_000,
  `jwt.verify` in part_001) as an oracle `List Char → Except String JsVal`;
* JavaScript runtime values produced by the handlers as the inductive
  `JsVal` (with `undef` for `undefined` and a NaN-aware number type),
  mirroring the objects passed to `res.json`.
-/

/-- A JavaScript number as produced by `parseFloat`: NaN, a signed infinity,
or a finite value (represented exactly as a rational; the handlers only
compare, never round, so double rounding is irrelevant to the claims). -/
inductive JsNumV where
  | nan
  | inf (neg : Bool)
  | fin (q : ℚ)
deriving DecidableEq

/-- A JavaScript runtime value, as handed to `res.json`.  `undef` is
`undefined` (a field holding it is dropped by JSON serialization, which the
claims note where it matters). -/
inductive JsVal where
  | undef
  | null
  | num (v : JsNumV)
  | str (s : String)
  | bool (b : Bool)
  | arr (elems : List JsVal)
  | obj (fields : List (String × JsVal))

/-- An HTTP response: status code plus the JSON body value. -/
structure HttpResponse where
  status : Nat
  body : JsVal

/-- Body shape `res.json(\x7b error: msg \x7d)` used by every error branch. -/
def errBody (msg : String) : JsVal :=
  .obj [("error", .str msg)]

/-! ### JavaScript string split on a single space

`authHeader.split(' ')` in the middleware.  For a one-character separator,
JavaScript `split` cuts the string at every occurrence of the separator and
keeps empty pieces: `''.split(' ') = ['']`, `' '.split(' ') = ['', '']`. -/

def jsSplitSpace : List Char → List (List Char)
  | [] => [[]]
  | c :: cs =>
    if c = ' ' then [] :: jsSplitSpace cs
    else
      match jsSplitSpace cs with
      | [] => [[c]]
      | w :: ws => (c :: w) :: ws

/-! ### JavaScript parseFloat

`parseFloat` (used by the pnl-data mapper) skips leading whitespace, reads an
optional sign, then the longest prefix that is `Infinity` or a decimal
literal (`digits [. digits] [e/E [sign] digits]`), and returns NaN when no
such prefix exists.  A trailing exponent marker without digits is ignored. -/

def isJsWs (c : Char) : Bool :=
  c = ' ' ∨ c = '\t' ∨ c = '\n' ∨ c = '\r' ∨ c = '\x0b' ∨ c = '\x0c'

def isDigitChar (c : Char) : Bool :=
  '0' ≤ c ∧ c ≤ '9'

def digitsToNat (ds : List Char) : Nat :=
  ds.foldl (fun a c => a * 10 + (c.toNat - 48)) 0

/-- Parse the unsigned decimal-literal prefix of `cs`; `none` when `cs` has
no leading digits and no leading `.digits`, i.e. the NaN case.  The value
`intpart.fracpart * 10 ^ (± expdigits)` is assembled as one exact rational
`mkRat num den` (so every arithmetic step stays in `Nat`/`Int`). -/
def parseDec (cs : List Char) : Option ℚ :=
  let ip := cs.takeWhile isDigitChar
  let r1 := cs.dropWhile isDigitChar
  let fp :=
    match r1 with
    | '.' :: rest => rest.takeWhile isDigitChar
    | _ => []
  let r2 :=
    match r1 with
    | '.' :: rest => rest.dropWhile isDigitChar
    | _ => r1
  if ip = [] ∧ fp = [] then none
  else
    let mantNum : Nat := digitsToNat ip * 10 ^ fp.length + digitsToNat fp
    let mantDen : Nat := 10 ^ fp.length
    let expDigits :=
      match r2 with
      | 'e' :: '+' :: ds => ((ds.takeWhile isDigitChar), false)
      | 'e' :: '-' :: ds => ((ds.takeWhile isDigitChar), true)
      | 'e' :: ds => ((ds.takeWhile isDigitChar), false)
      | 'E' :: '+' :: ds => ((ds.takeWhile isDigitChar), false)
      | 'E' :: '-' :: ds => ((ds.takeWhile isDigitChar), true)
      | 'E' :: ds => ((ds.takeWhile isDigitChar), false)
      | _ => ([], false)
    if expDigits.1 = [] then some (mkRat mantNum mantDen)
    else if expDigits.2 then some (mkRat mantNum (mantDen * 10 ^ digitsToNat expDigits.1))
    else some (mkRat (mantNum * 10 ^ digitsToNat expDigits.1) mantDen)

def jsParseFloat (cs : List Char) : JsNumV :=
  let cs1 := cs.dropWhile isJsWs
  let signAndRest : Bool × List Char :=
    match cs1 with
    | '-' :: rest => (true, rest)
    | '+' :: rest => (false, rest)
    | _ => (false, cs1)
  let neg := signAndRest.1
  let cs2 := signAndRest.2
  if cs2.take 8 = "Infinity".data then .inf neg
  else
    match parseDec cs2 with
    | none => .nan
    | some q => .fin (if neg then -q else q)

/-! ### Authentication middleware

All three variants share the same `authenticateToken` shape:

    const authHeader = req.headers['authorization'];
    const token = authHeader && authHeader.split(' ')[1];
    if (!token) return res.status(401).json(... 'No token provided' ...);
    // verify (Firebase verifyIdToken, or jwt.verify); on failure:
    //   return res.status(403).json(... 'Invalid token' ...);
    // on success: req.user = decoded; next();

`token` is falsy exactly when the header is absent, the header is the empty
string, or `split(' ')[1]` is `undefined` or `''`. -/

def extractToken (authHeader : Option (List Char)) : Option (List Char) :=
  match authHeader with
  | none => none
  | some h =>
    if h = [] then none
    else
      match (jsSplitSpace h).get? 1 with
      | none => none
      | some t => if t = [] then none else some t

/-- Outcome of running the middleware: either it already sent a response
(and `next()` is never called), or it proceeds with the decoded user. -/
inductive AuthOutcome where
  | halt (resp : HttpResponse)
  | proceed (user : JsVal)

def authenticateToken (verifyToken : List Char → Except String JsVal)
    (authHeader : Option (List Char)) : AuthOutcome :=
  match extractToken authHeader with
  | none => .halt ⟨401, errBody "No token provided"⟩
  | some t =>
    match verifyToken t with
    | .error _ => .halt ⟨403, errBody "Invalid token"⟩
    | .ok user => .proceed user

/-- Result of serving one request to a protected route: how many Sheets
reads were performed, and the response sent. -/
structure HandledRequest where
  sheetReads : Nat
  response : HttpResponse

/-- Express runs the middleware before the route handler; in the 401/403
branches the middleware responds and never calls `next()`, so the handler —
and any Sheets read it would perform — does not run (zero reads). -/
def runProtected (verifyToken : List Char → Except String JsVal)
    (handler : JsVal → HandledRequest)
    (authHeader : Option (List Char)) : HandledRequest :=
  match authenticateToken verifyToken authHeader with
  | .halt resp => ⟨0, resp⟩
  | .proceed user => handler user

/-! ### Sheets reads -/

/-- Outcome of one `sheets.spreadsheets.values.get` call.  `error msg` is a
rejected promise (caught by the handler), `ok none` a response whose
`data.values` is absent, `ok (some m)` a present row matrix of cells. -/
abbrev SheetResult : Type :=
  Except String (Option (List (List String)))

/-! ### Login (`POST /api/login`, identical in all three variants) -/

/-- A token produced by `jwt.sign(\x7b email \x7d, secret, \x7b expiresIn: '24h' \x7d)`,
modelled symbolically: the payload email, the signing secret, and the
issued-at / expiry timestamps (seconds); `expiresIn: '24h'` sets
`exp = iat + 24*60*60`. -/
structure SignedJwt where
  email : String
  secret : String
  iat : Nat
  exp : Nat
deriving DecidableEq

def jwtSign (email secret : String) (now expiresInSeconds : Nat) : SignedJwt :=
  ⟨email, secret, now, now + expiresInSeconds⟩

structure LoginResponse where
  status : Nat
  success : Bool
  token : Option SignedJwt
  message : Option String
  loginError : Option String
deriving DecidableEq

/-- The login route: destructure `email`/`password` from the JSON body
(absent fields are `undefined`, hence `none`), compare against the hardcoded
pair, and either sign a 24-hour token with
`process.env.JWT_SECRET || 'your-secret-key'` or answer 401. -/
def loginHandler (jwtSecretEnv : Option String) (now : Nat)
    (email password : Option String) : LoginResponse :=
  if email = some "asb@gmail.com" ∧ password = some "123" then
    ⟨200, true,
     some (jwtSign "asb@gmail.com" (jwtSecretEnv.getD "your-secret-key") now (24 * 60 * 60)),
     some "Login successful", none⟩
  else
    ⟨401, false, none, none, some "Invalid credentials"⟩

/-! ### Trade history -/

def optStr : Option String → JsVal
  | none => .undef
  | some s => .str s

/-- part_001's trade-history row mapper:
`(\x7b date: row[1], name: row[2], tradeType: row[3], pnl: row[4] \x7d)`.
Out-of-range indices are `undefined`. -/
def tradeRow (row : List String) : JsVal :=
  .obj [("date", optStr (row.get? 1)), ("name", optStr (row.get? 2)),
        ("tradeType", optStr (row.get? 3)), ("pnl", optStr (row.get? 4))]

/-- part_001's `GET /api/trade-history` after the Sheets read: 500 on a
rejected read; `[]` when `data.values` is absent or has length 0; otherwise
`values.map(rowMapper).reverse()`. -/
def part001TradeHistory (r : SheetResult) : HttpResponse :=
  match r with
  | .error _ => ⟨500, errBody "Failed to fetch trade history"⟩
  | .ok none => ⟨200, .arr []⟩
  | .ok (some values) =>
    if values.length = 0 then ⟨200, .arr []⟩
    else ⟨200, .arr ((values.map tradeRow).reverse)⟩

/-- server.js's (and part_000's) `GET /api/trade-history`: no mapping at
all — `const rows = response.data.values || []; res.json(\x7b data: rows \x7d)`;
500 on a rejected read. -/
def serverJsTradeHistory (r : SheetResult) : HttpResponse :=
  match r with
  | .error _ => ⟨500, errBody "Failed to load trade history"⟩
  | .ok v =>
    ⟨200, .obj [("data", .arr ((v.getD []).map (fun row => .arr (row.map JsVal.str))))]⟩

/-! ### P&L series (`GET /api/pnl-data`, identical in all three variants) -/

/-- The pnl cell of one row: `row[4] ? parseFloat(row[4]) : null`.
`row[4]` is falsy exactly when it is `undefined` (missing) or `''`. -/
def pnlCell (c : Option String) : JsVal :=
  match c with
  | none => .null
  | some s => if s = "" then .null else .num (jsParseFloat s.data)

/-- The pnl-data row mapper: `(\x7b date: row[1], pnl: row[4] ? parseFloat(row[4]) : null \x7d)`. -/
def pnlRow (row : List String) : JsVal :=
  .obj [("date", optStr (row.get? 1)), ("pnl", pnlCell (row.get? 4))]

/-- `GET /api/pnl-data` after the Sheets read: 500 (with details) on a
rejected read; `[]` when `data.values` is absent; otherwise the row mapper
applied to every row — there is no filtering step. -/
def pnlDataHandler (r : SheetResult) : HttpResponse :=
  match r with
  | .error msg =>
    ⟨500, .obj [("error", .str "Failed to fetch PNL data"), ("details", .str msg)]⟩
  | .ok none => ⟨200, .arr []⟩
  | .ok (some values) => ⟨200, .arr (values.map pnlRow)⟩

/-! ### Performance data (`GET /api/performance-data`) -/

/-- `cell || '0'`: a string cell is falsy exactly when it is `''`;
a missing cell (`undefined`) is falsy too. -/
def jsOrZeroStr (c : Option String) : String :=
  match c with
  | none => "0"
  | some s => if s = "" then "0" else s

def perfCard (title value change : String) : JsVal :=
  .obj [("title", .str title), ("value", .str value), ("change", .str change)]

/-- server.js's `GET /api/performance-data`: `Promise.all` of two reads
(rejects, hence 500, if either rejects); 404 when
`!valueRows || !changeRows || valueRows.length === 0 || changeRows.length === 0`;
otherwise the four `(\x7b title, value, change \x7d)` cards from offsets
0/2/4/6 of the first row of each matrix, defaulting `'0'`. -/
def serverJsPerformanceData (rv rc : SheetResult) : HttpResponse :=
  match rv, rc with
  | .error _, _ => ⟨500, errBody "Failed to fetch performance data"⟩
  | _, .error _ => ⟨500, errBody "Failed to fetch performance data"⟩
  | .ok v, .ok c =>
    match v, c with
    | none, _ => ⟨404, errBody "No data found in spreadsheet"⟩
    | _, none => ⟨404, errBody "No data found in spreadsheet"⟩
    | some valueRows, some changeRows =>
      if valueRows.length = 0 ∨ changeRows.length = 0 then
        ⟨404, errBody "No data found in spreadsheet"⟩
      else
        let v0 := valueRows.getD 0 []
        let c0 := changeRows.getD 0 []
        ⟨200, .arr
          [perfCard "This Week PNL" (jsOrZeroStr (v0.get? 0)) (jsOrZeroStr (c0.get? 0)),
           perfCard "Last Week PNL" (jsOrZeroStr (v0.get? 2)) (jsOrZeroStr (c0.get? 2)),
           perfCard "Monthly PNL" (jsOrZeroStr (v0.get? 4)) (jsOrZeroStr (c0.get? 4)),
           perfCard "Yearly PNL" (jsOrZeroStr (v0.get? 6)) (jsOrZeroStr (c0.get? 6))]⟩

def rowToJs : Option (List String) → JsVal
  | none => .undef
  | some r => .arr (r.map JsVal.str)

/-- part_000's `GET /api/performance-data`: `Promise.all` of the same two
reads, then `res.json(\x7b values: valueResponse.data.values[0], changes:
changeResponse.data.values[0] \x7d)` with no emptiness check.  When a
`data.values` is absent, `undefined[0]` throws a TypeError which the
handler's try/catch maps to 500; when it is present (even as an empty
matrix) the handler answers 200 with the first row of each (or `undefined`). -/
def part000PerformanceData (rv rc : SheetResult) : HttpResponse :=
  match rv, rc with
  | .error _, _ => ⟨500, errBody "Failed to fetch performance data"⟩
  | _, .error _ => ⟨500, errBody "Failed to fetch performance data"⟩
  | .ok none, _ => ⟨500, errBody "Failed to fetch performance data"⟩
  | _, .ok none => ⟨500, errBody "Failed to fetch performance data"⟩
  | .ok (some valueRows), .ok (some changeRows) =>
    ⟨200, .obj [("values", rowToJs (valueRows.get? 0)),
                ("changes", rowToJs (changeRows.get? 0))]⟩

/-! ### Predicates used by the claims -/

/-- The underlying read call failed (rejected promise). -/
def readFailed : SheetResult → Prop
  | .error _ => True
  | .ok _ => False

/-- A successful read carried no values: `data.values` absent or an empty
row matrix. -/
def noValues : Option (List (List String)) → Prop
  | none => True
  | some m => m = []

/-- Two rows agree on every column except column 0. -/
def rowsAgreeOffCol0 (r1 r2 : List String) : Prop :=
  ∀ k, k ≠ 0 → r1.get? k = r2.get? k

/-- The row-to-record mapping in the words of claim C3: date from column 1,
name from column 2, tradeType from column 3, pnl from column 4; a field of a
missing column is `undefined`.  Kept separate from `tradeRow` so the source
mapper can be compared against the claim's wording. -/
def tradeRowSpec (row : List String) : JsVal :=
  .obj [("date", optStr (row.get? 1)), ("name", optStr (row.get? 2)),
        ("tradeType", optStr (row.get? 3)), ("pnl", optStr (row.get? 4))]

/-- The four summary cards in the words of claim C6: fixed titles in order,
value from offsets 0/2/4/6 of the first value row and change from the same
offsets of the first change row, defaulting to '0' for an empty or missing
cell. -/
def perfCardsSpec (valueRow changeRow : List String) : List JsVal :=
  [perfCard "This Week PNL" (jsOrZeroStr (valueRow.get? 0)) (jsOrZeroStr (changeRow.get? 0)),
   perfCard "Last Week PNL" (jsOrZeroStr (valueRow.get? 2)) (jsOrZeroStr (changeRow.get? 2)),
   perfCard "Monthly PNL" (jsOrZeroStr (valueRow.get? 4)) (jsOrZeroStr (changeRow.get? 4)),
   perfCard "Yearly PNL" (jsOrZeroStr (valueRow.get? 6)) (jsOrZeroStr (changeRow.get? 6))]

/-! ## Helper lemmas -/

theorem jsSplitSpace_of_no_space :
    ∀ (h : List Char), (∀ c ∈ h, c ≠ ' ') → jsSplitSpace h = [h]
  | [], _ => rfl
  | c :: cs, hns => by
    have hc : c ≠ ' ' := hns c (List.mem_cons_self c cs)
    have ih := jsSplitSpace_of_no_space cs (fun x hx => hns x (List.mem_cons_of_mem c hx))
    simp [jsSplitSpace, hc, ih]

theorem map_congr_of_forall₂ {α β : Type} {R : α → α → Prop} {f : α → β}
    (hf : ∀ a b, R a b → f a = f b) :
    ∀ {l1 l2 : List α}, List.Forall₂ R l1 l2 → l1.map f = l2.map f := by
  intro l1 l2 h
  induction h with
  | nil => rfl
  | cons hab _ ih => simp [List.map_cons, hf _ _ hab, ih]

theorem tradeRow_congr (r1 r2 : List String) (h : rowsAgreeOffCol0 r1 r2) :
    tradeRow r1 = tradeRow r2 := by
  have h1 := h 1 one_ne_zero
  have h2 := h 2 (by omega)
  have h3 := h 3 (by omega)
  have h4 := h 4 (by omega)
  simp only [List.get?_eq_getElem?] at h1 h2 h3 h4
  simp [tradeRow, h1, h2, h3, h4]

theorem pnlRow_congr (r1 r2 : List String) (h : rowsAgreeOffCol0 r1 r2) :
    pnlRow r1 = pnlRow r2 := by
  have h1 := h 1 one_ne_zero
  have h4 := h 4 (by omega)
  simp only [List.get?_eq_getElem?] at h1 h4
  simp [pnlRow, pnlCell, h1, h4]

/-! ## Claim theorems -/

/-- Claim C1: for every request to a protected endpoint, if no bearer token
can be extracted from the Authorization header the response is 401 with an
error message and no spreadsheet read is performed; if a token is extracted
but its verification fails, the response is 403 with an error message and no
spreadsheet read is performed.  Quantified over the verifier (Firebase in
server.js/part_000, jwt in part_001) and over the route handler. -/
theorem auth_gate_rejects_without_upstream_read
    (verifyToken : List Char → Except String JsVal)
    (handler : JsVal → HandledRequest) (authHeader : Option (List Char)) :
    (extractToken authHeader = none →
      runProtected verifyToken handler authHeader =
        ⟨0, ⟨401, errBody "No token provided"⟩⟩) ∧
    (∀ t e, extractToken authHeader = some t → verifyToken t = .error e →
      runProtected verifyToken handler authHeader =
        ⟨0, ⟨403, errBody "Invalid token"⟩⟩) := by
  constructor
  · intro hnone
    simp [runProtected, authenticateToken, hnone]
  · intro t e ht hv
    simp [runProtected, authenticateToken, ht, hv]

/-- Witness for C1: a missing header yields 401 with zero reads, and a
well-formed header whose token fails verification yields 403 with zero
reads, for a handler that would have performed one read. -/
theorem auth_gate_rejects_without_upstream_read_witness :
    runProtected (fun _ => Except.error "bad") (fun _ => ⟨1, ⟨200, JsVal.null⟩⟩) none =
      ⟨0, ⟨401, errBody "No token provided"⟩⟩ ∧
    runProtected (fun _ => Except.error "bad") (fun _ => ⟨1, ⟨200, JsVal.null⟩⟩)
        (some "Bearer abc".data) =
      ⟨0, ⟨403, errBody "Invalid token"⟩⟩ :=
  ⟨(auth_gate_rejects_without_upstream_read _ _ none).1 rfl,
   (auth_gate_rejects_without_upstream_read _ _ (some "Bearer abc".data)).2
     "abc".data "bad" rfl rfl⟩

/-- Claim C2: POST /api/login with the pair asb@gmail.com / 123 answers
success with a token signed with the configured secret (JWT_SECRET, falling
back to 'your-secret-key'), whose claims carry that email and whose expiry
is 24 hours after issuance; every other pair gets 401 with success false
(and no token). -/
theorem login_token_and_rejection
    (jwtSecretEnv : Option String) (now : Nat) (email password : Option String) :
    (email = some "asb@gmail.com" ∧ password = some "123" →
      loginHandler jwtSecretEnv now email password =
        ⟨200, true,
         some ⟨"asb@gmail.com", jwtSecretEnv.getD "your-secret-key", now, now + 24 * 60 * 60⟩,
         some "Login successful", none⟩) ∧
    (¬ (email = some "asb@gmail.com" ∧ password = some "123") →
      (loginHandler jwtSecretEnv now email password).status = 401 ∧
      (loginHandler jwtSecretEnv now email password).success = false ∧
      (loginHandler jwtSecretEnv now email password).token = none) := by
  constructor
  · rintro ⟨h1, h2⟩
    subst h1; subst h2
    simp [loginHandler, jwtSign]
  · intro hnv
    simp [loginHandler, if_neg hnv]

/-- Witness for C2: the valid pair gets the signed 24-hour token, a wrong
password gets 401 / success false / no token. -/
theorem login_token_and_rejection_witness :
    loginHandler (some "s3cret") 1000 (some "asb@gmail.com") (some "123") =
      ⟨200, true, some ⟨"asb@gmail.com", "s3cret", 1000, 1000 + 24 * 60 * 60⟩,
       some "Login successful", none⟩ ∧
    (loginHandler (some "s3cret") 1000 (some "asb@gmail.com") (some "wrong")).status = 401 ∧
    (loginHandler (some "s3cret") 1000 (some "asb@gmail.com") (some "wrong")).success = false ∧
    (loginHandler (some "s3cret") 1000 (some "asb@gmail.com") (some "wrong")).token = none :=
  ⟨(login_token_and_rejection _ _ _ _).1 ⟨rfl, rfl⟩,
   (login_token_and_rejection _ _ _ _).2 (by simp)⟩

/-- Claim C10: an Authorization header consisting of a single token with no
space-separated scheme prefix makes split(' ')[1] undefined, so the
middleware answers 401 'No token provided' even though a credential string
was supplied — regardless of the verifier. -/
theorem schemeless_header_always_401
    (verifyToken : List Char → Except String JsVal) (h : List Char)
    (hne : h ≠ []) (hns : ∀ c ∈ h, c ≠ ' ') :
    authenticateToken verifyToken (some h) = .halt ⟨401, errBody "No token provided"⟩ := by
  have hsplit : jsSplitSpace h = [h] := jsSplitSpace_of_no_space h hns
  simp [authenticateToken, extractToken, hsplit, hne]

/-- Witness for C10: a raw token without the 'Bearer ' prefix is rejected
with 401 even when the verifier would accept any token. -/
theorem schemeless_header_always_401_witness :
    authenticateToken (fun t => Except.ok (JsVal.str (String.mk t)))
        (some "rawtoken123".data) =
      .halt ⟨401, errBody "No token provided"⟩ :=
  schemeless_header_always_401 _ "rawtoken123".data (by decide) (by decide)

/-- Counterexample to C3: on the spec's own example rows the mapper reads
columns 1-4, so it yields records with date 'ETH' / name 'short' /
tradeType '-20' and an undefined pnl (the rows have no column 4), not the
records the claim predicts; and nothing is filtered. -/
theorem trade_history_spec_example_cex :
    part001TradeHistory (.ok (some [["2024-01-01", "BTC", "long", "150.5"],
                                    ["2024-01-02", "ETH", "short", "-20"]])) =
      ⟨200, .arr [
        .obj [("date", .str "ETH"), ("name", .str "short"),
              ("tradeType", .str "-20"), ("pnl", .undef)],
        .obj [("date", .str "BTC"), ("name", .str "long"),
              ("tradeType", .str "150.5"), ("pnl", .undef)]]⟩ ∧
    (JsVal.arr [
        .obj [("date", .str "ETH"), ("name", .str "short"),
              ("tradeType", .str "-20"), ("pnl", .undef)],
        .obj [("date", .str "BTC"), ("name", .str "long"),
              ("tradeType", .str "150.5"), ("pnl", .undef)]]) ≠
      JsVal.arr [
        .obj [("date", .str "2024-01-02"), ("name", .str "ETH"),
              ("tradeType", .str "short"), ("pnl", .str "-20")],
        .obj [("date", .str "2024-01-01"), ("name", .str "BTC"),
              ("tradeType", .str "long"), ("pnl", .str "150.5")]] :=
  ⟨rfl, by simp⟩

/-- Claim C3 as amended: the part_001 trade-history endpoint maps every row
(date/name/tradeType/pnl from columns 1/2/3/4, per `tradeRowSpec` written
from the claim's words), performs no filtering (the output has exactly one
record per source row, at the reversed position), and returns the records in
reverse source order; on the example rows this produces the records with
date 'ETH' and date 'BTC' and no pnl field value. -/
theorem trade_history_maps_reverses_no_filter (values : List (List String)) :
    part001TradeHistory (.ok (some values)) =
      ⟨200, .arr ((values.map tradeRowSpec).reverse)⟩ ∧
    ((values.map tradeRowSpec).reverse).length = values.length ∧
    (∀ i, i < values.length →
      ((values.map tradeRowSpec).reverse).get? i =
        (values.get? (values.length - 1 - i)).map tradeRowSpec) := by
  refine ⟨?_, by simp, ?_⟩
  · cases values with
    | nil => rfl
    | cons r rs => rfl
  · intro i hi
    have hlen : i < (values.map tradeRowSpec).length := by simpa using hi
    rw [List.get?_eq_getElem?, List.getElem?_reverse hlen, List.getElem?_map,
        List.length_map, List.get?_eq_getElem?]

/-- Witness for the amended C3: the reversal equation at index 0 of a
one-row matrix. -/
theorem trade_history_maps_reverses_no_filter_witness :
    ((([["x", "d", "n", "t", "p"]] : List (List String)).map tradeRowSpec).reverse).get? 0 =
      (([["x", "d", "n", "t", "p"]] : List (List String)).get?
          (([["x", "d", "n", "t", "p"]] : List (List String)).length - 1 - 0)).map
        tradeRowSpec :=
  (trade_history_maps_reverses_no_filter _).2.2 0 (by decide)

/-- Counterexample to C5: a row whose numeric cell 'abc' does not parse is
still included in the pnl-data response (with pnl NaN); the claim would
make the response the empty list. -/
theorem pnl_data_no_filter_cex :
    jsParseFloat "abc".data = .nan ∧
    pnlDataHandler (.ok (some [["id1", "2024-01-01", "x", "y", "abc"]])) =
      ⟨200, .arr [.obj [("date", .str "2024-01-01"), ("pnl", .num .nan)]]⟩ ∧
    JsVal.arr [.obj [("date", .str "2024-01-01"), ("pnl", .num .nan)]] ≠ .arr [] :=
  ⟨rfl, rfl, by simp⟩

/-- Claim C5 as amended: GET /api/pnl-data includes every row of the matrix
in its response — one output record per source row at the same index — and
performs no filtering on parseability of the numeric cell. -/
theorem pnl_data_includes_every_row (values : List (List String)) :
    pnlDataHandler (.ok (some values)) = ⟨200, .arr (values.map pnlRow)⟩ ∧
    (values.map pnlRow).length = values.length ∧
    (∀ i, i < values.length → (values.map pnlRow).get? i = (values.get? i).map pnlRow) := by
  refine ⟨rfl, by simp, ?_⟩
  intro i _
  rw [List.get?_eq_getElem?, List.get?_eq_getElem?, List.getElem?_map]

/-- Witness for the amended C5: the index equation at index 0 of a one-row
matrix whose numeric cell is unparseable. -/
theorem pnl_data_includes_every_row_witness :
    (([["id1", "d", "x", "y", "abc"]] : List (List String)).map pnlRow).get? 0 =
      (([["id1", "d", "x", "y", "abc"]] : List (List String)).get? 0).map pnlRow :=
  (pnl_data_includes_every_row _).2.2 0 (by decide)

/-- Claim C9: in the pnl-data mapper the pnl field is null exactly when the
column-4 cell is absent or the empty string; the cell '0' gives the number 0
(not null); and a non-empty cell that does not parse gives NaN, which is a
value distinct from both null and 0. -/
theorem pnl_cell_null_zero_nan (row : List String) :
    (pnlCell (row.get? 4) = .null ↔ (row.get? 4 = none ∨ row.get? 4 = some "")) ∧
    (row.get? 4 = some "0" → pnlCell (row.get? 4) = .num (.fin 0)) ∧
    (∀ s, row.get? 4 = some s → s ≠ "" → jsParseFloat s.data = .nan →
      pnlCell (row.get? 4) = .num .nan) ∧
    JsVal.num .nan ≠ JsVal.null ∧ JsVal.num .nan ≠ JsVal.num (.fin 0) ∧
    pnlRow row = .obj [("date", optStr (row.get? 1)), ("pnl", pnlCell (row.get? 4))] := by
  refine ⟨?_, ?_, ?_, by simp, by simp, rfl⟩
  · rcases hc : row.get? 4 with _ | s
    · simp [pnlCell]
    · by_cases hs : s = ""
      · subst hs; simp [pnlCell]
      · simp [pnlCell, hs]
  · intro h0
    rw [h0]
    exact rfl
  · intro s hs hne hnan
    rw [hs]
    simp [pnlCell, hne, hnan]

/-- Witness for C9: the cell '0' yields the number 0, the unparseable cell
'abc' yields NaN. -/
theorem pnl_cell_null_zero_nan_witness :
    pnlCell ((["", "", "", "", "0"] : List String).get? 4) = .num (.fin 0) ∧
    pnlCell ((["", "", "", "", "abc"] : List String).get? 4) = .num .nan :=
  ⟨(pnl_cell_null_zero_nan ["", "", "", "", "0"]).2.1 rfl,
   (pnl_cell_null_zero_nan ["", "", "", "", "abc"]).2.2.1 "abc" rfl (by decide) rfl⟩

/-- Counterexample to C4: in the part_000 variant, when both reads succeed
but the first carries no values, the endpoint answers 500 (the handler
throws on `undefined[0]` and its catch maps to 500), not the 404 the claim
asserts. -/
theorem perf_data_missing_values_cex :
    part000PerformanceData (.ok none) (.ok (some [["1"]])) =
      ⟨500, errBody "Failed to fetch performance data"⟩ ∧
    (part000PerformanceData (.ok none) (.ok (some [["1"]]))).status ≠ 404 :=
  ⟨rfl, by decide⟩

/-- Claim C4 as amended: in the server.js variant a failed read (either
side) gives 500 and two successful reads with a missing-or-empty matrix give
404, as the claim states; in the part_000 variant a failed read or a missing
matrix gives 500, and two present matrices — even empty ones — give 200. -/
theorem perf_data_error_and_empty_handling :
    (∀ (e : String) (r : SheetResult),
      (serverJsPerformanceData (.error e) r).status = 500 ∧
      (serverJsPerformanceData r (.error e)).status = 500 ∧
      (part000PerformanceData (.error e) r).status = 500 ∧
      (part000PerformanceData r (.error e)).status = 500) ∧
    (∀ v c, noValues v ∨ noValues c →
      (serverJsPerformanceData (.ok v) (.ok c)).status = 404) ∧
    (∀ v c, v = none ∨ c = none →
      (part000PerformanceData (.ok v) (.ok c)).status = 500) ∧
    (∀ m1 m2, (part000PerformanceData (.ok (some m1)) (.ok (some m2))).status = 200) := by
  refine ⟨?_, ?_, ?_, fun m1 m2 => rfl⟩
  · intro e r
    rcases r with e2 | v
    · exact ⟨rfl, rfl, rfl, rfl⟩
    · rcases v with _ | m <;> exact ⟨rfl, rfl, rfl, rfl⟩
  · intro v c h
    rcases v with _ | m1
    · rcases c with _ | m2 <;> rfl
    · rcases c with _ | m2
      · rfl
      · rcases h with h | h <;> simp [noValues] at h <;> subst h <;>
          simp [serverJsPerformanceData]
  · intro v c h
    rcases h with h | h <;> subst h
    · rcases c with _ | m2 <;> rfl
    · rcases v with _ | m1 <;> rfl

/-- Witness for the amended C4: a rejected read gives 500 in both variants;
an empty matrix gives 404 in server.js; a missing matrix gives 500 and an
empty-but-present matrix gives 200 in part_000. -/
theorem perf_data_error_and_empty_handling_witness :
    (serverJsPerformanceData (.error "boom") (.ok (some [["1"]]))).status = 500 ∧
    (serverJsPerformanceData (.ok (some [])) (.ok (some [["1"]]))).status = 404 ∧
    (part000PerformanceData (.ok none) (.ok (some [["1"]]))).status = 500 ∧
    (part000PerformanceData (.ok (some [])) (.ok (some [["1"]]))).status = 200 :=
  ⟨(perf_data_error_and_empty_handling.1 "boom" (.ok (some [["1"]]))).1,
   perf_data_error_and_empty_handling.2.1 (some []) (some [["1"]]) (Or.inl rfl),
   perf_data_error_and_empty_handling.2.2.1 none (some [["1"]]) (Or.inl rfl),
   perf_data_error_and_empty_handling.2.2.2 [] [["1"]]⟩

/-- Counterexample to C6: with both reads successful and non-empty, the
part_000 variant answers with an object carrying the raw first rows, which
is not the four-card array the claim asserts for the endpoint. -/
theorem perf_data_shape_part000_cex :
    part000PerformanceData (.ok (some [["h1", "x", "j1", "x", "l1", "x", "n1"]]))
                           (.ok (some [["g2", "y", "i2", "y", "k2", "y", "m2"]])) =
      ⟨200, .obj [("values", .arr (["h1", "x", "j1", "x", "l1", "x", "n1"].map JsVal.str)),
                  ("changes", .arr (["g2", "y", "i2", "y", "k2", "y", "m2"].map JsVal.str))]⟩ ∧
    (JsVal.obj [("values", .arr (["h1", "x", "j1", "x", "l1", "x", "n1"].map JsVal.str)),
                ("changes", .arr (["g2", "y", "i2", "y", "k2", "y", "m2"].map JsVal.str))]) ≠
      JsVal.arr [perfCard "This Week PNL" "h1" "g2", perfCard "Last Week PNL" "j1" "i2",
                 perfCard "Monthly PNL" "l1" "k2", perfCard "Yearly PNL" "n1" "m2"] :=
  ⟨rfl, by simp [perfCard]⟩

/-- Claim C6 as amended: in the server.js variant the success response is
exactly the four titled cards of `perfCardsSpec` (written from the claim's
words: offsets 0/2/4/6 of the first value row and first change row, default
'0' for empty or missing cells); the part_000 variant instead answers 200
with the raw first rows wrapped in an object. -/
theorem perf_data_success_shape (vr cr : List (List String))
    (hv : vr ≠ []) (hc : cr ≠ []) :
    serverJsPerformanceData (.ok (some vr)) (.ok (some cr)) =
      ⟨200, .arr (perfCardsSpec (vr.getD 0 []) (cr.getD 0 []))⟩ ∧
    (perfCardsSpec (vr.getD 0 []) (cr.getD 0 [])).length = 4 ∧
    part000PerformanceData (.ok (some vr)) (.ok (some cr)) =
      ⟨200, .obj [("values", rowToJs (vr.get? 0)), ("changes", rowToJs (cr.get? 0))]⟩ := by
  refine ⟨?_, rfl, rfl⟩
  have h1 : ¬ vr.length = 0 := by simpa [List.length_eq_zero] using hv
  have h2 : ¬ cr.length = 0 := by simpa [List.length_eq_zero] using hc
  simp [serverJsPerformanceData, h1, h2, perfCardsSpec]

/-- Witness for the amended C6 at two one-row matrices. -/
theorem perf_data_success_shape_witness :
    serverJsPerformanceData (.ok (some [["a"]])) (.ok (some [["b"]])) =
      ⟨200, .arr (perfCardsSpec (([["a"]] : List (List String)).getD 0 [])
                                (([["b"]] : List (List String)).getD 0 []))⟩ :=
  (perf_data_success_shape [["a"]] [["b"]] (by decide) (by decide)).1

/-- Counterexample to C7: on a successful read with zero rows, server.js's
trade-history answers 200 with the object (data: []), which is not the
bare empty list the claim asserts. -/
theorem empty_rows_wrapped_cex :
    serverJsTradeHistory (.ok none) = ⟨200, .obj [("data", .arr [])]⟩ ∧
    JsVal.obj [("data", JsVal.arr [])] ≠ JsVal.arr [] :=
  ⟨rfl, by simp⟩

/-- Claim C7 as amended: on a successful read with zero rows, every
list-shaped endpoint answers HTTP 200 and never an error status; pnl-data
(all variants) and part_001's trade-history answer the bare empty list,
while server.js's trade-history answers the empty list wrapped in an object
under the data key. -/
theorem empty_rows_yield_empty_list (r : SheetResult)
    (h : r = .ok none ∨ r = .ok (some [])) :
    pnlDataHandler r = ⟨200, .arr []⟩ ∧
    part001TradeHistory r = ⟨200, .arr []⟩ ∧
    (serverJsTradeHistory r).status = 200 ∧
    serverJsTradeHistory r = ⟨200, .obj [("data", .arr [])]⟩ := by
  rcases h with h | h <;> subst h <;> exact ⟨rfl, rfl, rfl, rfl⟩

/-- Witness for the amended C7 at a read whose values field is absent. -/
theorem empty_rows_yield_empty_list_witness :
    pnlDataHandler (.ok none) = ⟨200, .arr []⟩ ∧
    part001TradeHistory (.ok none) = ⟨200, .arr []⟩ ∧
    (serverJsTradeHistory (.ok none)).status = 200 ∧
    serverJsTradeHistory (.ok none) = ⟨200, .obj [("data", .arr [])]⟩ :=
  empty_rows_yield_empty_list (.ok none) (Or.inl rfl)

/-- Claim C8: for two row matrices that agree on every column except column
0, the trade-history mapper (part_001) and the pnl-data mapper produce
identical responses — neither endpoint's output depends on column 0. -/
theorem mappers_ignore_column0 (m1 m2 : List (List String))
    (h : List.Forall₂ rowsAgreeOffCol0 m1 m2) :
    part001TradeHistory (.ok (some m1)) = part001TradeHistory (.ok (some m2)) ∧
    pnlDataHandler (.ok (some m1)) = pnlDataHandler (.ok (some m2)) := by
  have hlen := h.length_eq
  have hmapT : m1.map tradeRow = m2.map tradeRow :=
    map_congr_of_forall₂ tradeRow_congr h
  have hmapP : m1.map pnlRow = m2.map pnlRow :=
    map_congr_of_forall₂ pnlRow_congr h
  constructor
  · simp only [part001TradeHistory, hlen, hmapT]
  · simp only [pnlDataHandler, hmapP]

/-- Witness for C8: two one-row matrices that differ only in column 0 give
identical trade-history and pnl-data responses. -/
theorem mappers_ignore_column0_witness :
    part001TradeHistory (.ok (some [["a", "d", "n", "t", "5"]])) =
      part001TradeHistory (.ok (some [["b", "d", "n", "t", "5"]])) ∧
    pnlDataHandler (.ok (some [["a", "d", "n", "t", "5"]])) =
      pnlDataHandler (.ok (some [["b", "d", "n", "t", "5"]])) :=
  mappers_ignore_column0 _ _
    (List.Forall₂.cons
      (fun k hk => by
        cases k with
        | zero => exact absurd rfl hk
        | succ n => rfl)
      List.Forall₂.nil)
